import Mathlib

/-!
Shallow embedding of the retail backend (src/main.py, src/schemas.py).

Modelling conventions:
* JSON-like stored documents are association lists from field names to values.
  Python dict semantics (unique keys, lookup by key, in-place replacement,
  append on fresh key) are reproduced by `lookupField` / `setField` /
  `removeKey`.
* Python numbers (int and float) are modelled as exact rationals `ℚ`.
* `datetime` values are modelled as an abstract tick count `Nat`; the
  `isoformat` rendering is modelled as an injective rendering of the tick
  count to a string (calendar formatting is abstracted away).
* Mongo ObjectId strings are modelled as decimal strings over store-assigned
  natural-number identifiers; `parseOid` is the ObjectId constructor, which
  fails exactly on malformed strings.
* HTTP errors raised via HTTPException / request-body validation are the
  `ApiError` sum; handlers are explicit state-passing functions on `Store`
  returning `(Except ApiError result) × Store`, so the error branch exhibits
  the unchanged store.
-/

/-- A primitive (scalar) document value. -/
inductive Prim where
  | str (s : String)
  | num (q : ℚ)
  | bool (b : Bool)
  | dt (t : Nat)
  | oid (n : Nat)
  | null
deriving DecidableEq, Repr

/-- A document field value: a primitive, an embedded object of primitives
(customer info), or an array of such objects (order items). -/
inductive Value where
  | prim (p : Prim)
  | obj (fields : List (String × Prim))
  | arrObj (items : List (List (String × Prim)))
deriving DecidableEq, Repr

/-- A stored or outbound document: association list of named values,
modelling a Python dict. -/
abbrev Doc := List (String × Value)

/-- Dict lookup: value of the first binding of `k`. -/
def lookupField (d : Doc) (k : String) : Option Value :=
  match d with
  | [] => none
  | (k', v) :: rest => if k' = k then some v else lookupField rest k

/-- Dict assignment `d[k] = v`: replace the binding in place when present,
append when absent. -/
def setField (d : Doc) (k : String) (v : Value) : Doc :=
  match d with
  | [] => [(k, v)]
  | (k', v') :: rest =>
      if k' = k then (k, v) :: rest else (k', v') :: setField rest k v

/-- Dict deletion (`d.pop k` discarding the value); dict keys are unique, so
removing every binding of `k` agrees with removing the one binding. -/
def removeKey (d : Doc) (k : String) : Doc :=
  match d with
  | [] => []
  | (k', v) :: rest =>
      if k' = k then removeKey rest k else (k', v) :: removeKey rest k

/-- Apply a dict of updates left to right (`$set` semantics). -/
def setFields (d : Doc) (updates : Doc) : Doc :=
  updates.foldl (fun acc p => setField acc p.1 p.2) d

/-- Abstract ISO-8601 rendering of a datetime tick count
(`datetime.isoformat`); calendar arithmetic is abstracted,
the rendering is injective into strings. -/
def isoformat (t : Nat) : String := toString t ++ "Z"

/-- `str()` applied to a stored value; only the ObjectId case is exercised
by `serialize_doc` on store documents. -/
def oidString (n : Nat) : String := toString n

/-- Python `str(v)` on a document value (used on the `_id`, always an
ObjectId in store documents). -/
def pyStr (v : Value) : String :=
  match v with
  | .prim (.oid n) => oidString n
  | .prim (.str s) => s
  | .prim (.num q) => toString q
  | .prim (.bool b) => if b then "True" else "False"
  | .prim (.dt t) => isoformat t
  | .prim .null => "None"
  | .obj _ => "object"
  | .arrObj _ => "array"

/-- The timestamp keys converted on serialization (src/main.py line 36). -/
def tsKeys : List String := ["created_at", "updated_at", "placed_at"]

/-- One step of the timestamp-conversion loop: if `k` is present and holds a
datetime, replace it by its isoformat string. -/
def convertTs (d : Doc) (k : String) : Doc :=
  match lookupField d k with
  | some (.prim (.dt t)) => setField d k (.prim (.str (isoformat t)))
  | _ => d

/-- `serialize_doc` (src/main.py lines 31-39): empty/None input yields None;
otherwise the `_id` is popped, rendered by `str` into a new `id` field, and
datetime-valued timestamp fields are rendered via isoformat.  The missing-key
error of `doc.pop` on a document without `_id` is modelled as `none`
(never reached on store documents). -/
def serialize_doc (doc : Doc) : Option Doc :=
  if doc.isEmpty then none
  else
    match lookupField doc "_id" with
    | none => none
    | some v =>
        let d1 := setField (removeKey doc "_id") "id" (.prim (.str (pyStr v)))
        some (tsKeys.foldl convertTs d1)

/-- The error responses raised by the handlers: HTTPException with status
400 / 401 / 404, and the 422 raised by FastAPI when the request body fails
validation against the declared pydantic shape. -/
inductive ApiError where
  | badRequest (detail : String)
  | unauthorized (detail : String)
  | notFound (detail : String)
  | validationError
deriving DecidableEq, Repr

/-- `require_admin` (src/main.py lines 42-45): the expected secret is the
`ADMIN_KEY` environment value, defaulting to "admin123" when unset; any
caller key other than exactly that string is rejected with 401. -/
def require_admin (adminKey : Option String) (env : Option String) :
    Except ApiError Unit :=
  let expected := env.getD "admin123"
  if adminKey = some expected then .ok ()
  else .error (.unauthorized "Unauthorized: invalid admin key")

/-- The decimal digits, used to parse modelled id strings. -/
def digits : List Char := ['0', '1', '2', '3', '4', '5', '6', '7', '8', '9']

/-- `to_object_id` (src/main.py lines 24-28): the bson ObjectId constructor,
modelled over decimal id strings; it succeeds exactly on the strings that
denote a store-assigned identifier and fails on malformed strings. -/
def parseOid (s : String) : Option Nat :=
  if s.data ≠ [] ∧ s.data.all (fun c => c ∈ digits) then
    some (s.data.foldl (fun n c => 10 * n + digits.indexOf c) 0)
  else none

/-- The PCRE metacharacters this embedding does not interpret.  The store's
`$regex` is full PCRE; the embedding covers only the fragment of query
strings free of these characters (literals plus '.'), on which the modelled
dialect and PCRE agree, and every theorem about free-text queries is
quantified over that fragment only. -/
def pcreMeta : List Char :=
  ['*', '+', '?', '^', '$', '|', '[', ']', '(', ')', '\x7b', '\x7d', '\\']

/-- A query string inside the modelled fragment: no PCRE metacharacter other
than '.'. -/
def inRegexFragment (pat : String) : Bool :=
  pat.data.all (fun c => !pcreMeta.contains c)

/-- Regex match of a pattern against the characters at one position, for the
literal-and-dot fragment of the store's PCRE dialect: '.' matches any
character except a newline (as in PCRE without dotall), every other
in-fragment pattern character matches itself; comparison is
case-insensitive, as under the `$options: "i"` flag the source always sets.
Patterns outside `inRegexFragment` are beyond this model and no listing
theorem quantifies over them. -/
def patMatchAt : List Char → List Char → Bool
  | [], _ => true
  | _ :: _, [] => false
  | p :: ps, c :: cs =>
      (((p == '.') && (c != '\n')) || (p.toLower == c.toLower)) &&
        patMatchAt ps cs

/-- Unanchored case-insensitive regex search (`$regex` with `$options: "i"`)
over the modelled fragment: the pattern matches at some position of the
subject string. -/
def regexSearchI (pat s : String) : Bool :=
  s.data.tails.any (fun t => patMatchAt pat.data t)

/-- The condition forms occurring in the filters the source builds:
exact equality with a string, `$ne` against a boolean, and `$regex` with the
case-insensitive option. -/
inductive Cond where
  | eqStr (s : String)
  | neBool (b : Bool)
  | regexI (pat : String)
deriving DecidableEq, Repr

/-- Mongo evaluation of one field condition on a document: `$ne` also
matches documents lacking the field; equality and `$regex` require the field
present (and, for `$regex`, string-valued). -/
def matchCond (d : Doc) (k : String) (c : Cond) : Bool :=
  match c with
  | .eqStr s => decide (lookupField d k = some (.prim (.str s)))
  | .neBool b => decide (lookupField d k ≠ some (.prim (.bool b)))
  | .regexI pat =>
      match lookupField d k with
      | some (.prim (.str s)) => regexSearchI pat s
      | _ => false

/-- The filter shapes the source builds: a conjunction of field conditions,
optionally together with a `$or` disjunction of field conditions. -/
structure MFilter where
  conds : List (String × Cond)
  orConds : Option (List (String × Cond))
deriving DecidableEq, Repr

/-- Mongo evaluation of a filter document on a stored document. -/
def matchFilter (f : MFilter) (d : Doc) : Bool :=
  f.conds.all (fun p => matchCond d p.1 p.2) &&
    (match f.orConds with
     | none => true
     | some cs => cs.any (fun p => matchCond d p.1 p.2))

/-- The document store: one list per collection the source uses, in insertion
order, plus the next store-assigned identifier. -/
structure Store where
  products : List Doc
  orders : List Doc
  nextId : Nat
deriving DecidableEq, Repr

/-- Collection access `db[coll]` for the two collections the source names. -/
def collOf (st : Store) (coll : String) : List Doc :=
  if coll = "product" then st.products
  else if coll = "order" then st.orders
  else []

def setColl (st : Store) (coll : String) (docs : List Doc) : Store :=
  if coll = "product" then { st with products := docs }
  else if coll = "order" then { st with orders := docs }
  else st

/-- Modelled from the spec: `database.create_document` (database.py is not
under src/).  Per §2/§3 of the spec the store gateway persists the document
under a fresh store-generated opaque identifier and sets the
created_at/updated_at timestamps ("timestamps set by store layer"), returning
the new identifier. -/
def create_document (coll : String) (data : Doc) (now : Nat) (st : Store) :
    Nat × Store :=
  let oid := st.nextId
  let doc := setFields data
    [("_id", .prim (.oid oid)), ("created_at", .prim (.dt now)),
     ("updated_at", .prim (.dt now))]
  let st' := setColl st coll (collOf st coll ++ [doc])
  (oid, { st' with nextId := oid + 1 })

/-- Modelled from the spec: `database.get_documents` (database.py is not
under src/): a filtered scan returning every document of the collection
matching the filter (the source's calls pass no effective limit). -/
def get_documents (coll : String) (filt : MFilter) (st : Store) : List Doc :=
  (collOf st coll).filter (matchFilter filt)

/-- Store lookup by `_id` equality. -/
def idMatches (oid : Nat) (d : Doc) : Bool :=
  decide (lookupField d "_id" = some (.prim (.oid oid)))

/-- `collection.find_one({"_id": oid})`: first document with that id. -/
def find_one (docs : List Doc) (oid : Nat) : Option Doc :=
  docs.find? (idMatches oid)

/-- `collection.update_one({"_id": oid}, {"$set": updates})`: apply the
updates to the first matching document; `none` models `matched_count == 0`. -/
def update_one (docs : List Doc) (oid : Nat) (updates : Doc) :
    Option (List Doc) :=
  match docs with
  | [] => none
  | d :: rest =>
      if idMatches oid d then some (setFields d updates :: rest)
      else (update_one rest oid updates).map (d :: ·)

/-- `collection.delete_one({"_id": oid})`: remove the first matching
document; `none` models `deleted_count == 0`. -/
def delete_one (docs : List Doc) (oid : Nat) : Option (List Doc) :=
  match docs with
  | [] => none
  | d :: rest =>
      if idMatches oid d then some rest
      else (delete_one rest oid).map (d :: ·)

/-- Order line item (`CartItem` in src/main.py lines 68-72); quantity is an
int validated with `ge=1`. -/
structure CartItem where
  product_id : String
  title : String
  price : ℚ
  quantity : ℤ
deriving DecidableEq, Repr

/-- `CustomerInfo` (src/main.py lines 74-79). -/
structure CustomerInfo where
  name : String
  phone : String
  city : String
  address : String
  notes : Option String := none
deriving DecidableEq, Repr

/-- `OrderCreate` (src/main.py lines 81-84). -/
structure OrderCreate where
  items : List CartItem
  customer : CustomerInfo
  payment_method : String := "COD"
deriving DecidableEq, Repr

/-- `OrderStatusUpdate` (src/main.py lines 86-88): `status` is a required
string field, `tracking_note` an optional one. -/
structure OrderStatusUpdate where
  status : String
  tracking_note : Option String := none
deriving DecidableEq, Repr

/-- `ProductCreate` (src/main.py lines 50-57). -/
structure ProductCreate where
  title : String
  description : Option String := none
  price : ℚ
  currency : String := "SYP"
  category : String
  image_url : Option String := none
  in_stock : Bool := true
deriving DecidableEq, Repr

/-- `ProductUpdate` (src/main.py lines 59-66): every field optional. -/
structure ProductUpdate where
  title : Option String := none
  description : Option String := none
  price : Option ℚ := none
  currency : Option String := none
  category : Option String := none
  image_url : Option String := none
  in_stock : Option Bool := none
deriving DecidableEq, Repr

/-- `model_dump` of an optional string: None dumps as null. -/
def optStrPrim : Option String → Prim
  | some s => .str s
  | none => .null

/-- `CartItem.model_dump()`. -/
def CartItem.dump (i : CartItem) : List (String × Prim) :=
  [("product_id", .str i.product_id), ("title", .str i.title),
   ("price", .num i.price), ("quantity", .num (i.quantity : ℚ))]

/-- `CustomerInfo.model_dump()`. -/
def CustomerInfo.dump (c : CustomerInfo) : List (String × Prim) :=
  [("name", .str c.name), ("phone", .str c.phone), ("city", .str c.city),
   ("address", .str c.address), ("notes", optStrPrim c.notes)]

/-- One entry of a `model_dump(exclude_none=True)`: present fields
contribute a binding, absent ones contribute nothing. -/
def optEntry (k : String) (v : Option Value) : Doc :=
  match v with
  | some x => [(k, x)]
  | none => []

/-- `payload.model_dump(exclude_none=True)` for `ProductUpdate`
(src/main.py line 163): only the explicitly supplied (non-None) fields, in
declaration order. -/
def ProductUpdate.dump (p : ProductUpdate) : Doc :=
  optEntry "title" (p.title.map (fun s => .prim (.str s))) ++
  optEntry "description" (p.description.map (fun s => .prim (.str s))) ++
  optEntry "price" (p.price.map (fun q => .prim (.num q))) ++
  optEntry "currency" (p.currency.map (fun s => .prim (.str s))) ++
  optEntry "category" (p.category.map (fun s => .prim (.str s))) ++
  optEntry "image_url" (p.image_url.map (fun s => .prim (.str s))) ++
  optEntry "in_stock" (p.in_stock.map (fun b => .prim (.bool b)))

/-- `payload.model_dump(exclude_none=True)` for `OrderStatusUpdate`
(src/main.py line 225): status is always present, tracking_note only when
supplied. -/
def OrderStatusUpdate.dump (p : OrderStatusUpdate) : Doc :=
  [("status", .prim (.str p.status))] ++
  optEntry "tracking_note" (p.tracking_note.map (fun s => .prim (.str s)))

/-- The total of src/main.py line 190:
`sum(i.price * i.quantity for i in payload.items)`. -/
def orderTotal (items : List CartItem) : ℚ :=
  (items.map (fun i => i.price * (i.quantity : ℚ))).sum

/-- `create_order` (src/main.py lines 183-202): public endpoint; rejects
non-COD payment and empty carts with 400 before any store access, then
persists the order document and returns the serialized stored document. -/
def create_order (payload : OrderCreate) (now : Nat) (st : Store) :
    Except ApiError (Option Doc) × Store :=
  if payload.payment_method ≠ "COD" then
    (.error (.badRequest "Only COD is supported"), st)
  else if payload.items.length = 0 then
    (.error (.badRequest "Cart is empty"), st)
  else
    let total := orderTotal payload.items
    let order : Doc :=
      [("items", .arrObj (payload.items.map CartItem.dump)),
       ("customer", .obj payload.customer.dump),
       ("payment_method", .prim (.str "COD")),
       ("status", .prim (.str "new")),
       ("total", .prim (.num total)),
       ("currency", .prim (.str "SYP")),
       ("placed_at", .prim (.dt now))]
    let res := create_document "order" order now st
    (.ok ((find_one res.2.orders res.1).bind serialize_doc), res.2)

/-- The filter built by `list_products` (src/main.py lines 121-130):
in-stock by `$ne: false`, an optional `$or` of case-insensitive regexes over
title/description/category when a (truthy) `q` is given, and an exact
category equality when a (truthy) `category` is given. -/
def productFilter (q category : Option String) : MFilter :=
  let conds := [("in_stock", Cond.neBool false)]
  let orConds :=
    match q with
    | some s =>
        if s.isEmpty then none
        else some [("title", Cond.regexI s), ("description", Cond.regexI s),
                   ("category", Cond.regexI s)]
    | none => none
  let conds :=
    match category with
    | some c => if c.isEmpty then conds else conds ++ [("category", Cond.eqStr c)]
    | none => conds
  ⟨conds, orConds⟩

/-- `list_products` (src/main.py lines 120-132): public; filtered scan of the
product collection, each result serialized. -/
def list_products (q category : Option String) (st : Store) :
    List (Option Doc) :=
  (get_documents "product" (productFilter q category) st).map serialize_doc

/-- `get_product` (src/main.py lines 134-139): public; 400 on malformed id,
404 when absent (or stored falsy), else the serialized document. -/
def get_product (productId : String) (st : Store) :
    Except ApiError (Option Doc) :=
  match parseOid productId with
  | none => .error (.badRequest "Invalid ID format")
  | some oid =>
      match find_one st.products oid with
      | none => .error (.notFound "Product not found")
      | some doc =>
          if doc.isEmpty then .error (.notFound "Product not found")
          else .ok (serialize_doc doc)

/-- `create_product` (src/main.py lines 141-158): admin-gated; the document
is built from the `schemas.Product` dump (title, description, price,
category, in_stock, image_url — the latter null, since it is not passed to
the schema constructor), then image_url is overwritten only when truthy
(non-empty), and currency is added; finally the document is persisted and
re-read, and the serialized stored document returned. -/
def create_product (payload : ProductCreate) (adminKey env : Option String)
    (now : Nat) (st : Store) : Except ApiError (Option Doc) × Store :=
  match require_admin adminKey env with
  | .error e => (.error e, st)
  | .ok _ =>
      let product : Doc :=
        [("title", .prim (.str payload.title)),
         ("description", .prim (optStrPrim payload.description)),
         ("price", .prim (.num payload.price)),
         ("category", .prim (.str payload.category)),
         ("in_stock", .prim (.bool payload.in_stock)),
         ("image_url", .prim .null)]
      let product :=
        match payload.image_url with
        | some u =>
            if u.isEmpty then product
            else setField product "image_url" (.prim (.str u))
        | none => product
      let product := setField product "currency" (.prim (.str payload.currency))
      let res := create_document "product" product now st
      (.ok ((find_one res.2.products res.1).bind serialize_doc), res.2)

/-- The two response shapes of `update_product`: the no-op body
`updated: false`, or a serialized document. -/
inductive UpdateResp where
  | updatedFalse
  | doc (d : Option Doc)
deriving DecidableEq, Repr

/-- `update_product` (src/main.py lines 160-171): admin-gated; dumps the
non-None fields, answers the no-op body when there are none (before the id
is even parsed), else adds updated_at, applies `$set` to the matching
document (404 when none matches) and returns the serialized re-read
document. -/
def update_product (productId : String) (payload : ProductUpdate)
    (adminKey env : Option String) (now : Nat) (st : Store) :
    Except ApiError UpdateResp × Store :=
  match require_admin adminKey env with
  | .error e => (.error e, st)
  | .ok _ =>
      let updates := payload.dump
      if updates.isEmpty then (.ok .updatedFalse, st)
      else
        let updates := setField updates "updated_at" (.prim (.dt now))
        match parseOid productId with
        | none => (.error (.badRequest "Invalid ID format"), st)
        | some oid =>
            match update_one st.products oid updates with
            | none => (.error (.notFound "Product not found"), st)
            | some products' =>
                let st' := { st with products := products' }
                (.ok (.doc ((find_one st'.products oid).bind serialize_doc)),
                 st')

/-- `delete_product` (src/main.py lines 173-179): admin-gated hard delete;
the `true` result models the body `deleted: true`. -/
def delete_product (productId : String) (adminKey env : Option String)
    (st : Store) : Except ApiError Bool × Store :=
  match require_admin adminKey env with
  | .error e => (.error e, st)
  | .ok _ =>
      match parseOid productId with
      | none => (.error (.badRequest "Invalid ID format"), st)
      | some oid =>
          match delete_one st.products oid with
          | none => (.error (.notFound "Product not found"), st)
          | some products' => (.ok true, { st with products := products' })

/-- The filter built by `list_orders` (src/main.py lines 207-209): empty, or
an exact status equality when a (truthy) status is given. -/
def orderFilter (status : Option String) : MFilter :=
  let conds :=
    match status with
    | some s => if s.isEmpty then [] else [("status", Cond.eqStr s)]
    | none => []
  ⟨conds, none⟩

/-- The sort key of src/main.py line 211:
`d.get("placed_at", datetime.utcnow())`. -/
def placedKey (now : Nat) (d : Doc) : Nat :=
  match lookupField d "placed_at" with
  | some (.prim (.dt t)) => t
  | _ => now

/-- Stable insertion keeping keys descending: the inserted document passes
only elements with strictly greater key, so equal keys keep their original
order, as under Python's stable `list.sort(key=..., reverse=True)`. -/
def insertDescBy (key : Doc → Nat) (d : Doc) : List Doc → List Doc
  | [] => [d]
  | x :: xs =>
      if key d < key x then x :: insertDescBy key d xs else d :: x :: xs

/-- Sort a document list by descending key. -/
def sortDescBy (key : Doc → Nat) : List Doc → List Doc
  | [] => []
  | d :: ds => insertDescBy key d (sortDescBy key ds)

/-- `list_orders` (src/main.py lines 204-212): admin-gated; optional exact
status filter, sorted by placed_at descending, each result serialized.
Read-only: the store is not touched. -/
def list_orders (adminKey env : Option String) (status : Option String)
    (now : Nat) (st : Store) : Except ApiError (List (Option Doc)) :=
  match require_admin adminKey env with
  | .error e => .error e
  | .ok _ =>
      let docs := get_documents "order" (orderFilter status) st
      .ok ((sortDescBy (placedKey now) docs).map serialize_doc)

/-- `get_order` (src/main.py lines 214-220): admin-gated single fetch. -/
def get_order (orderId : String) (adminKey env : Option String) (st : Store) :
    Except ApiError (Option Doc) :=
  match require_admin adminKey env with
  | .error e => .error e
  | .ok _ =>
      match parseOid orderId with
      | none => .error (.badRequest "Invalid ID format")
      | some oid =>
          match find_one st.orders oid with
          | none => .error (.notFound "Order not found")
          | some doc =>
              if doc.isEmpty then .error (.notFound "Order not found")
              else .ok (serialize_doc doc)

/-- `update_order` (src/main.py lines 222-231): admin-gated; dumps the
non-None fields (status always present), adds updated_at, applies `$set` to
the matching order (404 when none matches) and returns the serialized
re-read document. -/
def update_order (orderId : String) (payload : OrderStatusUpdate)
    (adminKey env : Option String) (now : Nat) (st : Store) :
    Except ApiError (Option Doc) × Store :=
  match require_admin adminKey env with
  | .error e => (.error e, st)
  | .ok _ =>
      let updates := setField payload.dump "updated_at" (.prim (.dt now))
      match parseOid orderId with
      | none => (.error (.badRequest "Invalid ID format"), st)
      | some oid =>
          match update_one st.orders oid updates with
          | none => (.error (.notFound "Order not found"), st)
          | some orders' =>
              let st' := { st with orders := orders' }
              (.ok ((find_one st'.orders oid).bind serialize_doc), st')

/-- A raw JSON field value of a (flat) request body, distinguishing an
explicit null from an absent field. -/
inductive JPrim where
  | null
  | str (s : String)
  | num (q : ℚ)
  | bool (b : Bool)
deriving DecidableEq, Repr

/-- A raw request body for the flat update/create shapes: field name to raw
value; a field not bound is absent from the request. -/
abbrev RawBody := List (String × JPrim)

/-- First binding of `k` in a raw body. -/
def lookupRaw (b : RawBody) (k : String) : Option JPrim :=
  match b with
  | [] => none
  | (k', v) :: rest => if k' = k then some v else lookupRaw rest k

/-- The raw body with every binding of `k` removed. -/
def rawErase (b : RawBody) (k : String) : RawBody :=
  match b with
  | [] => []
  | (k', v) :: rest =>
      if k' = k then rawErase rest k else (k', v) :: rawErase rest k

/-- pydantic validation of a required `str` field: present string values are
accepted (the empty string included); absence, null and other types are a
validation error. -/
def reqStrField (b : RawBody) (k : String) : Except ApiError String :=
  match lookupRaw b k with
  | some (.str s) => .ok s
  | _ => .error .validationError

/-- pydantic validation of an `Optional[str] = None` field: absent and null
both become None; non-string values are a validation error. -/
def optStrField (b : RawBody) (k : String) : Except ApiError (Option String) :=
  match lookupRaw b k with
  | none => .ok none
  | some .null => .ok none
  | some (.str s) => .ok (some s)
  | some _ => .error .validationError

/-- pydantic validation of a `str` field with a default: absent becomes the
default; null and non-strings are a validation error. -/
def defStrField (b : RawBody) (k dflt : String) : Except ApiError String :=
  match lookupRaw b k with
  | none => .ok dflt
  | some (.str s) => .ok s
  | _ => .error .validationError

/-- pydantic validation of the required `float = Field(..., ge=0)` price:
numeric and ≥ 0, else a validation error. -/
def reqPriceField (b : RawBody) (k : String) : Except ApiError ℚ :=
  match lookupRaw b k with
  | some (.num q) => if 0 ≤ q then .ok q else .error .validationError
  | _ => .error .validationError

/-- pydantic validation of `Optional[float] = Field(None, ge=0)`: absent and
null become None; numeric values must be ≥ 0. -/
def optPriceField (b : RawBody) (k : String) : Except ApiError (Option ℚ) :=
  match lookupRaw b k with
  | none => .ok none
  | some .null => .ok none
  | some (.num q) => if 0 ≤ q then .ok (some q) else .error .validationError
  | some _ => .error .validationError

/-- pydantic validation of a `bool` field with a default. -/
def defBoolField (b : RawBody) (k : String) (dflt : Bool) :
    Except ApiError Bool :=
  match lookupRaw b k with
  | none => .ok dflt
  | some (.bool v) => .ok v
  | _ => .error .validationError

/-- pydantic validation of an `Optional[bool] = None` field. -/
def optBoolField (b : RawBody) (k : String) : Except ApiError (Option Bool) :=
  match lookupRaw b k with
  | none => .ok none
  | some .null => .ok none
  | some (.bool v) => .ok (some v)
  | some _ => .error .validationError

/-- Validation of a request body against the `ProductCreate` shape
(src/main.py lines 50-57), as FastAPI performs before the handler runs. -/
def ProductCreate.validate (b : RawBody) : Except ApiError ProductCreate := do
  let title ← reqStrField b "title"
  let description ← optStrField b "description"
  let price ← reqPriceField b "price"
  let currency ← defStrField b "currency" "SYP"
  let category ← reqStrField b "category"
  let image_url ← optStrField b "image_url"
  let inStock ← defBoolField b "in_stock" true
  return ⟨title, description, price, currency, category, image_url, inStock⟩

/-- Validation of a request body against the `ProductUpdate` shape
(src/main.py lines 59-66): every field optional, explicit null accepted by
every field and collapsed to None. -/
def ProductUpdate.validate (b : RawBody) : Except ApiError ProductUpdate := do
  let title ← optStrField b "title"
  let description ← optStrField b "description"
  let price ← optPriceField b "price"
  let currency ← optStrField b "currency"
  let category ← optStrField b "category"
  let image_url ← optStrField b "image_url"
  let inStock ← optBoolField b "in_stock"
  return ⟨title, description, price, currency, category, image_url, inStock⟩

/-- Validation of a request body against the `OrderStatusUpdate` shape
(src/main.py lines 86-88): `status` required, `tracking_note` optional. -/
def OrderStatusUpdate.validate (b : RawBody) :
    Except ApiError OrderStatusUpdate := do
  let status ← reqStrField b "status"
  let tn ← optStrField b "tracking_note"
  return ⟨status, tn⟩

/-- POST /api/products as served: body validation (422) happens before the
handler runs. -/
def create_product_endpoint (body : RawBody) (adminKey env : Option String)
    (now : Nat) (st : Store) : Except ApiError (Option Doc) × Store :=
  match ProductCreate.validate body with
  | .error e => (.error e, st)
  | .ok p => create_product p adminKey env now st

/-- PATCH /api/products/id as served: body validation, then the handler. -/
def update_product_endpoint (productId : String) (body : RawBody)
    (adminKey env : Option String) (now : Nat) (st : Store) :
    Except ApiError UpdateResp × Store :=
  match ProductUpdate.validate body with
  | .error e => (.error e, st)
  | .ok p => update_product productId p adminKey env now st

/-- PATCH /api/orders/id as served: body validation, then the handler. -/
def update_order_endpoint (orderId : String) (body : RawBody)
    (adminKey env : Option String) (now : Nat) (st : Store) :
    Except ApiError (Option Doc) × Store :=
  match OrderStatusUpdate.validate body with
  | .error e => (.error e, st)
  | .ok p => update_order orderId p adminKey env now st

/-- The spec's free-text matching rule, written from its words ("optional
free-text query matches (case-insensitive substring) against title OR
description OR category"): the query occurs as a case-insensitive substring
of the subject.  Used to compare the served behaviour (regex matching)
against the specified one. -/
def specContainsCI (q s : String) : Bool :=
  (s.data.map Char.toLower).tails.any
    (fun t => (q.data.map Char.toLower).isPrefixOf t)

/-- A one-product catalog used to exhibit the regex/substring divergence:
title "x", category "c", no in_stock field. -/
def regexStore : Store :=
  ⟨[[("_id", .prim (.oid 0)), ("title", .prim (.str "x")),
     ("category", .prim (.str "c"))]], [], 1⟩

/-- A stored order document with id 0, status "new". -/
def oneOrderDoc : Doc :=
  [("_id", .prim (.oid 0)), ("payment_method", .prim (.str "COD")),
   ("status", .prim (.str "new")), ("total", .prim (.num 1500)),
   ("currency", .prim (.str "SYP")), ("placed_at", .prim (.dt 1))]

/-- A store holding that one order. -/
def oneOrderStore : Store := ⟨[], [oneOrderDoc], 1⟩

/-- An order-status-update body supplying only `tracking_note`. -/
def noteOnlyBody : RawBody := [("tracking_note", .str "left at door")]

/-- A product-creation body whose title is the empty string. -/
def emptyTitleBody : RawBody :=
  [("title", .str ""), ("price", .num 5), ("category", .str "c")]

/-- A stored product document used by concrete instantiations. -/
def sampleProduct : Doc :=
  [("_id", .prim (.oid 0)), ("title", .prim (.str "Tea")),
   ("description", .prim .null), ("price", .prim (.num 1500)),
   ("category", .prim (.str "drinks")), ("in_stock", .prim (.bool true)),
   ("image_url", .prim .null), ("currency", .prim (.str "SYP")),
   ("created_at", .prim (.dt 1)), ("updated_at", .prim (.dt 1))]

/-- The partial-update payload supplying only in_stock. -/
def inStockOnly : ProductUpdate :=
  ⟨none, none, none, none, none, none, some false⟩

/-! ### Association-list (dict) lemmas -/

theorem lookupField_setField_self (d : Doc) (k : String) (v : Value) :
    lookupField (setField d k v) k = some v := by
  induction d with
  | nil => simp [setField, lookupField]
  | cons hd tl ih =>
      by_cases h : hd.1 = k
      · simp [setField, h, lookupField]
      · simp [setField, h, lookupField, ih]

theorem lookupField_setField_ne (d : Doc) (k k' : String) (v : Value)
    (hne : k ≠ k') : lookupField (setField d k v) k' = lookupField d k' := by
  induction d with
  | nil => simp [setField, lookupField, hne]
  | cons hd tl ih =>
      obtain ⟨k1, v1⟩ := hd
      by_cases h : k1 = k
      · have h1 : k1 ≠ k' := fun hh => hne (h.symm.trans hh)
        simp [setField, h, lookupField, hne, h1]
      · simp [setField, h, lookupField, ih]

theorem lookupField_removeKey_self (d : Doc) (k : String) :
    lookupField (removeKey d k) k = none := by
  induction d with
  | nil => rfl
  | cons hd tl ih =>
      obtain ⟨k1, v1⟩ := hd
      by_cases h : k1 = k
      · simpa [removeKey, h] using ih
      · simpa [removeKey, h, lookupField] using ih

theorem lookupField_removeKey_ne (d : Doc) (k k' : String) (hne : k' ≠ k) :
    lookupField (removeKey d k) k' = lookupField d k' := by
  induction d with
  | nil => rfl
  | cons hd tl ih =>
      obtain ⟨k1, v1⟩ := hd
      by_cases h : k1 = k
      · subst h
        simpa [removeKey, lookupField, Ne.symm hne] using ih
      · by_cases h2 : k1 = k'
        · subst h2
          simp [removeKey, hne, lookupField]
        · simpa [removeKey, h, lookupField, h2] using ih

theorem lookupField_setFields_notMem (d : Doc) (us : Doc) (k : String)
    (h : k ∉ us.map Prod.fst) :
    lookupField (setFields d us) k = lookupField d k := by
  induction us generalizing d with
  | nil => rfl
  | cons hd tl ih =>
      simp only [List.map_cons, List.mem_cons] at h
      push_neg at h
      have : lookupField (setFields (setField d hd.1 hd.2) tl) k
          = lookupField (setField d hd.1 hd.2) k := ih _ h.2
      simp only [setFields, List.foldl_cons] at *
      rw [this, lookupField_setField_ne _ _ _ _ (fun hh => h.1 hh.symm)]

theorem lookupField_setFields_mem (d : Doc) (us : Doc) (k : String) (v : Value)
    (hnd : (us.map Prod.fst).Nodup) (hmem : (k, v) ∈ us) :
    lookupField (setFields d us) k = some v := by
  induction us generalizing d with
  | nil => cases hmem
  | cons hd tl ih =>
      simp only [List.map_cons, List.nodup_cons] at hnd
      rcases List.mem_cons.mp hmem with heq | htl
      · subst heq
        simp only [setFields, List.foldl_cons]
        have : lookupField (setFields (setField d k v) tl) k
            = lookupField (setField d k v) k := by
          exact lookupField_setFields_notMem _ _ _ hnd.1
        simp only [setFields] at this
        rw [this, lookupField_setField_self]
      · simp only [setFields, List.foldl_cons]
        exact ih _ hnd.2 htl

theorem lookupField_append (l1 l2 : Doc) (k : String) :
    lookupField (l1 ++ l2) k =
      match lookupField l1 k with
      | some v => some v
      | none => lookupField l2 k := by
  induction l1 with
  | nil => simp [lookupField]
  | cons hd tl ih =>
      obtain ⟨k1, v1⟩ := hd
      by_cases h : k1 = k <;> simp [lookupField, h, ih]

theorem setField_append_of_notMem (d : Doc) (k : String) (v : Value)
    (h : k ∉ d.map Prod.fst) : setField d k v = d ++ [(k, v)] := by
  induction d with
  | nil => rfl
  | cons hd tl ih =>
      obtain ⟨k1, v1⟩ := hd
      simp only [List.map_cons, List.mem_cons] at h
      push_neg at h
      have hne : k1 ≠ k := fun hh => h.1 hh.symm
      simp [setField, hne, ih h.2]

theorem find_one_append_none (l1 l2 : List Doc) (oid : Nat)
    (h : ∀ d ∈ l1, idMatches oid d = false) :
    find_one (l1 ++ l2) oid = find_one l2 oid := by
  induction l1 with
  | nil => rfl
  | cons hd tl ih =>
      have h1 := h hd (by simp)
      have h2 : ∀ d ∈ tl, idMatches oid d = false :=
        fun d hd2 => h d (by simp [hd2])
      simp only [find_one, List.cons_append, List.find?, h1]
      exact ih h2

theorem update_one_none_of_find_none (docs : List Doc) (oid : Nat) (us : Doc)
    (h : find_one docs oid = none) : update_one docs oid us = none := by
  induction docs with
  | nil => rfl
  | cons d rest ih =>
      by_cases hm : idMatches oid d
      · simp [find_one, List.find?, hm] at h
      · simp only [find_one, List.find?, hm] at h
        simp [update_one, hm, ih h]

theorem update_one_found (docs : List Doc) (oid : Nat) (us : Doc) (d0 : Doc)
    (hfind : find_one docs oid = some d0)
    (hid : idMatches oid (setFields d0 us) = true) :
    ∃ docs', update_one docs oid us = some docs' ∧
      find_one docs' oid = some (setFields d0 us) := by
  induction docs with
  | nil => simp [find_one, List.find?] at hfind
  | cons d rest ih =>
      by_cases hm : idMatches oid d
      · have hd0 : d = d0 := by
          simpa [find_one, List.find?, hm] using hfind
        subst hd0
        refine ⟨setFields d us :: rest, by simp [update_one, hm], ?_⟩
        simp [find_one, List.find?, hid]
      · simp only [find_one, List.find?, hm] at hfind
        obtain ⟨docs', hup, hfd⟩ := ih hfind
        refine ⟨d :: docs', ?_, ?_⟩
        · simp [update_one, hm, hup]
        · simp only [find_one, List.find?, hm]
          exact hfd

theorem mem_insertDescBy (key : Doc → Nat) (d x : Doc) (l : List Doc) :
    x ∈ insertDescBy key d l ↔ x ∈ d :: l := by
  induction l with
  | nil => simp [insertDescBy]
  | cons hd tl ih =>
      by_cases h : key d < key hd <;>
        simp [insertDescBy, h, ih, List.mem_cons] <;> try tauto

theorem mem_sortDescBy (key : Doc → Nat) (x : Doc) (l : List Doc) :
    x ∈ sortDescBy key l ↔ x ∈ l := by
  induction l with
  | nil => simp [sortDescBy]
  | cons hd tl ih => simp [sortDescBy, mem_insertDescBy, ih]

theorem lookupField_convertTs_ne (d : Doc) (k k' : String) (h : k' ≠ k) :
    lookupField (convertTs d k) k' = lookupField d k' := by
  rcases hv : lookupField d k with _ | v
  · simp [convertTs, hv]
  · rcases v with p | f | i
    · rcases p with s | q | b | t | n | _ <;>
        simp [convertTs, hv, lookupField_setField_ne _ _ _ _ (Ne.symm h)]
    · simp [convertTs, hv]
    · simp [convertTs, hv]

theorem lookupField_convertTs_dt (d : Doc) (k : String) (t : Nat)
    (h : lookupField d k = some (.prim (.dt t))) :
    lookupField (convertTs d k) k = some (.prim (.str (isoformat t))) := by
  simp [convertTs, h, lookupField_setField_self]

theorem lookupField_convertTs_none (d : Doc) (k : String)
    (h : lookupField d k = none) :
    lookupField (convertTs d k) k = none := by
  simp [convertTs, h]

theorem lookupRaw_rawErase_self (b : RawBody) (k : String) :
    lookupRaw (rawErase b k) k = none := by
  induction b with
  | nil => rfl
  | cons hd tl ih =>
      obtain ⟨k1, v1⟩ := hd
      by_cases h : k1 = k
      · simpa [rawErase, h] using ih
      · simpa [rawErase, h, lookupRaw] using ih

theorem lookupRaw_rawErase_ne (b : RawBody) (k k' : String) (h : k' ≠ k) :
    lookupRaw (rawErase b k) k' = lookupRaw b k' := by
  induction b with
  | nil => rfl
  | cons hd tl ih =>
      obtain ⟨k1, v1⟩ := hd
      by_cases h1 : k1 = k
      · subst h1
        simpa [rawErase, lookupRaw, Ne.symm h] using ih
      · by_cases h2 : k1 = k'
        · subst h2
          simp [rawErase, h, lookupRaw]
        · simpa [rawErase, h1, lookupRaw, h2] using ih

/-- C2: for every order-creation payload whose payment_method is not exactly
"COD" or whose items sequence is empty, `create_order` rejects with a Bad
Request error and performs no store write: the returned store is the input
store, unchanged. -/
theorem claim_C2_order_create_rejected (payload : OrderCreate) (now : Nat)
    (st : Store) (h : payload.payment_method ≠ "COD" ∨ payload.items = []) :
    (∃ d, (create_order payload now st).1 = .error (.badRequest d)) ∧
    (create_order payload now st).2 = st := by
  by_cases hpm : payload.payment_method = "COD"
  · rcases h with h | h
    · exact absurd hpm h
    · exact ⟨⟨"Cart is empty", by simp [create_order, hpm, h]⟩,
        by simp [create_order, hpm, h]⟩
  · exact ⟨⟨"Only COD is supported", by simp [create_order, hpm]⟩,
      by simp [create_order, hpm]⟩

/-- Witness for C2: a one-item CASH order is rejected and the (empty) order
collection is unchanged. -/
theorem claim_C2_witness :
    (∃ d, (create_order ⟨[⟨"p1", "Tea", 1000, 1⟩], ⟨"a", "09", "ct", "st", none⟩,
        "CASH"⟩ 0 ⟨[], [], 0⟩).1 = .error (.badRequest d)) ∧
    (create_order ⟨[⟨"p1", "Tea", 1000, 1⟩], ⟨"a", "09", "ct", "st", none⟩,
        "CASH"⟩ 0 ⟨[], [], 0⟩).2 = ⟨[], [], 0⟩ :=
  claim_C2_order_create_rejected _ _ _ (Or.inl (by decide))

/-- C3: with an absent or mismatched admin credential (exact string equality
against the configured secret, defaulting to "admin123" when the
configuration is unset), product create/update/delete, order listing, order
single-fetch and order status update all fail Unauthorized with the store
unchanged; the exact secret passes the gate; product single-fetch and order
creation never produce an Unauthorized error. -/
theorem claim_C3_admin_gate (env adminKey : Option String) (st : Store)
    (hk : adminKey ≠ some (env.getD "admin123")) :
    (∀ p now, create_product p adminKey env now st
        = (.error (.unauthorized "Unauthorized: invalid admin key"), st)) ∧
    (∀ pid p now, update_product pid p adminKey env now st
        = (.error (.unauthorized "Unauthorized: invalid admin key"), st)) ∧
    (∀ pid, delete_product pid adminKey env st
        = (.error (.unauthorized "Unauthorized: invalid admin key"), st)) ∧
    (∀ status now, list_orders adminKey env status now st
        = .error (.unauthorized "Unauthorized: invalid admin key")) ∧
    (∀ oid, get_order oid adminKey env st
        = .error (.unauthorized "Unauthorized: invalid admin key")) ∧
    (∀ oid p now, update_order oid p adminKey env now st
        = (.error (.unauthorized "Unauthorized: invalid admin key"), st)) ∧
    require_admin (some (env.getD "admin123")) env = .ok () ∧
    (∀ pid d, get_product pid st ≠ .error (.unauthorized d)) ∧
    (∀ payload now d, (create_order payload now st).1 ≠ .error (.unauthorized d)) := by
  have hreq : require_admin adminKey env
      = .error (.unauthorized "Unauthorized: invalid admin key") := by
    simp [require_admin, hk]
  refine ⟨?_, ?_, ?_, ?_, ?_, ?_, ?_, ?_, ?_⟩
  · intro p now
    simp [create_product, hreq]
  · intro pid p now
    simp [update_product, hreq]
  · intro pid
    simp [delete_product, hreq]
  · intro status now
    simp [list_orders, hreq]
  · intro oid
    simp [get_order, hreq]
  · intro oid p now
    simp [update_order, hreq]
  · simp [require_admin]
  · intro pid d
    unfold get_product
    cases hp : parseOid pid with
    | none => simp
    | some oid =>
        cases hf : find_one st.products oid with
        | none => simp [hf]
        | some doc => cases doc <;> simp [hf]
  · intro payload now d
    unfold create_order
    by_cases h1 : payload.payment_method ≠ "COD" <;>
      by_cases h2 : payload.items.length = 0 <;>
        simp [h1, h2]

/-- Witness for C3: with no key and no configured secret, product creation is
refused with 401 and the empty store is unchanged. -/
theorem claim_C3_witness :
    create_product ⟨"T", none, 5, "SYP", "c", none, true⟩ none none 3 ⟨[], [], 0⟩
      = (.error (.unauthorized "Unauthorized: invalid admin key"), ⟨[], [], 0⟩) :=
  (claim_C3_admin_gate none none ⟨[], [], 0⟩ (by decide)).1
    ⟨"T", none, 5, "SYP", "c", none, true⟩ 3

/-- C10: a product update whose payload supplies zero fields answers the
no-op body (updated: false) with the correct admin key, for every id string
(well-formed, malformed or unmatched alike) and every store, which is
returned unchanged — so no not-found error is raised and no store read or
write occurs. -/
theorem claim_C10_noop_update (pid : String) (payload : ProductUpdate)
    (env : Option String) (now : Nat) (st : Store)
    (hdump : payload.dump = []) :
    update_product pid payload (some (env.getD "admin123")) env now st
      = (.ok .updatedFalse, st) := by
  simp [update_product, require_admin, hdump]

/-- Witness for C10: the all-absent payload on a nonsense id and an empty
store answers the no-op body. -/
theorem claim_C10_witness :
    update_product "zzz" ⟨none, none, none, none, none, none, none⟩
        (some "admin123") none 5 ⟨[], [], 0⟩ = (.ok .updatedFalse, ⟨[], [], 0⟩) :=
  claim_C10_noop_update "zzz" ⟨none, none, none, none, none, none, none⟩
    none 5 ⟨[], [], 0⟩ (by decide)

/-- C1: for every accepted order-creation payload (payment_method "COD",
non-empty items), the persisted order document and the document returned by
`create_order` both carry total = Σ price·quantity over the submitted items,
status "new", currency "SYP" and payment_method "COD"; and the result is
computed from the client-submitted line prices only — it does not depend on
the stored product collection at all. -/
theorem claim_C1_order_create_total (payload : OrderCreate) (now : Nat)
    (st : Store)
    (hfresh : ∀ d ∈ st.orders, idMatches st.nextId d = false)
    (hpm : payload.payment_method = "COD") (hne : payload.items ≠ []) :
    ∃ stored out,
      (create_order payload now st).2.orders = st.orders ++ [stored] ∧
      find_one (create_order payload now st).2.orders st.nextId = some stored ∧
      (create_order payload now st).1 = .ok (some out) ∧
      serialize_doc stored = some out ∧
      lookupField stored "total" = some (.prim (.num
        ((payload.items.map (fun i => i.price * (i.quantity : ℚ))).sum))) ∧
      lookupField stored "status" = some (.prim (.str "new")) ∧
      lookupField stored "currency" = some (.prim (.str "SYP")) ∧
      lookupField stored "payment_method" = some (.prim (.str "COD")) ∧
      lookupField out "total" = some (.prim (.num
        ((payload.items.map (fun i => i.price * (i.quantity : ℚ))).sum))) ∧
      lookupField out "status" = some (.prim (.str "new")) ∧
      lookupField out "currency" = some (.prim (.str "SYP")) ∧
      lookupField out "payment_method" = some (.prim (.str "COD")) ∧
      (∀ ps, (create_order payload now { st with products := ps }).1
          = (create_order payload now st).1) := by
  have hlen : ¬payload.items.length = 0 := by
    simpa [List.length_eq_zero] using hne
  have horders : (create_order payload now st).2.orders = st.orders ++
      [[("items", Value.arrObj (payload.items.map CartItem.dump)),
        ("customer", Value.obj payload.customer.dump),
        ("payment_method", .prim (.str "COD")),
        ("status", .prim (.str "new")),
        ("total", .prim (.num (orderTotal payload.items))),
        ("currency", .prim (.str "SYP")),
        ("placed_at", .prim (.dt now)),
        ("_id", .prim (.oid st.nextId)),
        ("created_at", .prim (.dt now)),
        ("updated_at", .prim (.dt now))]] := by
    simp [create_order, hpm, hlen, create_document, collOf, setColl,
      setFields, setField]
  have hfind1 : find_one (st.orders ++
      [[("items", Value.arrObj (payload.items.map CartItem.dump)),
        ("customer", Value.obj payload.customer.dump),
        ("payment_method", .prim (.str "COD")),
        ("status", .prim (.str "new")),
        ("total", .prim (.num (orderTotal payload.items))),
        ("currency", .prim (.str "SYP")),
        ("placed_at", .prim (.dt now)),
        ("_id", .prim (.oid st.nextId)),
        ("created_at", .prim (.dt now)),
        ("updated_at", .prim (.dt now))]]) st.nextId = some
      [("items", Value.arrObj (payload.items.map CartItem.dump)),
        ("customer", Value.obj payload.customer.dump),
        ("payment_method", .prim (.str "COD")),
        ("status", .prim (.str "new")),
        ("total", .prim (.num (orderTotal payload.items))),
        ("currency", .prim (.str "SYP")),
        ("placed_at", .prim (.dt now)),
        ("_id", .prim (.oid st.nextId)),
        ("created_at", .prim (.dt now)),
        ("updated_at", .prim (.dt now))] := by
    rw [find_one_append_none _ _ _ hfresh]
    simp [find_one, List.find?, idMatches, lookupField]
  have hres : (create_order payload now st).1
      = .ok ((find_one (st.orders ++
          [[("items", Value.arrObj (payload.items.map CartItem.dump)),
            ("customer", Value.obj payload.customer.dump),
            ("payment_method", .prim (.str "COD")),
            ("status", .prim (.str "new")),
            ("total", .prim (.num (orderTotal payload.items))),
            ("currency", .prim (.str "SYP")),
            ("placed_at", .prim (.dt now)),
            ("_id", .prim (.oid st.nextId)),
            ("created_at", .prim (.dt now)),
            ("updated_at", .prim (.dt now))]]) st.nextId).bind
          serialize_doc) := by
    simp [create_order, hpm, hlen, create_document, collOf, setColl,
      setFields, setField]
  refine ⟨[("items", Value.arrObj (payload.items.map CartItem.dump)),
      ("customer", Value.obj payload.customer.dump),
      ("payment_method", .prim (.str "COD")),
      ("status", .prim (.str "new")),
      ("total", .prim (.num (orderTotal payload.items))),
      ("currency", .prim (.str "SYP")),
      ("placed_at", .prim (.dt now)),
      ("_id", .prim (.oid st.nextId)),
      ("created_at", .prim (.dt now)),
      ("updated_at", .prim (.dt now))],
    [("items", Value.arrObj (payload.items.map CartItem.dump)),
      ("customer", Value.obj payload.customer.dump),
      ("payment_method", .prim (.str "COD")),
      ("status", .prim (.str "new")),
      ("total", .prim (.num (orderTotal payload.items))),
      ("currency", .prim (.str "SYP")),
      ("placed_at", .prim (.str (isoformat now))),
      ("created_at", .prim (.str (isoformat now))),
      ("updated_at", .prim (.str (isoformat now))),
      ("id", .prim (.str (oidString st.nextId)))],
    horders, ?_, ?_, ?_, ?_, ?_, ?_, ?_, ?_, ?_, ?_, ?_, ?_⟩
  · rw [horders]
    exact hfind1
  · rw [hres, hfind1]
    simp [serialize_doc, lookupField, removeKey, setField, convertTs,
      tsKeys, pyStr]
  · simp [serialize_doc, lookupField, removeKey, setField, convertTs,
      tsKeys, pyStr]
  · simp [lookupField, orderTotal]
  · simp [lookupField]
  · simp [lookupField]
  · simp [lookupField]
  · simp [lookupField, orderTotal]
  · simp [lookupField]
  · simp [lookupField]
  · simp [lookupField]
  · intro ps
    simp [create_order, hpm, hlen, create_document, collOf, setColl]

/-- Witness for C1: the spec's own example — two items 1000×2 and 500×1 give
total 2500 — instantiated on the empty store. -/
theorem claim_C1_witness :
    ((([⟨"p1", "Tea", 1000, 2⟩, ⟨"p2", "Cof", 500, 1⟩] : List CartItem)).map
        (fun i => i.price * (i.quantity : ℚ))).sum = 2500 ∧
    ∃ stored out,
      (create_order ⟨[⟨"p1", "Tea", 1000, 2⟩, ⟨"p2", "Cof", 500, 1⟩],
          ⟨"A", "09", "Dam", "St", none⟩, "COD"⟩ 7 ⟨[], [], 0⟩).2.orders
        = ([] : List Doc) ++ [stored] ∧
      find_one (create_order ⟨[⟨"p1", "Tea", 1000, 2⟩, ⟨"p2", "Cof", 500, 1⟩],
          ⟨"A", "09", "Dam", "St", none⟩, "COD"⟩ 7 ⟨[], [], 0⟩).2.orders 0
        = some stored ∧
      (create_order ⟨[⟨"p1", "Tea", 1000, 2⟩, ⟨"p2", "Cof", 500, 1⟩],
          ⟨"A", "09", "Dam", "St", none⟩, "COD"⟩ 7 ⟨[], [], 0⟩).1
        = .ok (some out) ∧
      serialize_doc stored = some out ∧
      lookupField stored "total" = some (.prim (.num
        ((([⟨"p1", "Tea", 1000, 2⟩, ⟨"p2", "Cof", 500, 1⟩] : List CartItem)).map
          (fun i => i.price * (i.quantity : ℚ))).sum)) ∧
      lookupField stored "status" = some (.prim (.str "new")) ∧
      lookupField stored "currency" = some (.prim (.str "SYP")) ∧
      lookupField stored "payment_method" = some (.prim (.str "COD")) ∧
      lookupField out "total" = some (.prim (.num
        ((([⟨"p1", "Tea", 1000, 2⟩, ⟨"p2", "Cof", 500, 1⟩] : List CartItem)).map
          (fun i => i.price * (i.quantity : ℚ))).sum)) ∧
      lookupField out "status" = some (.prim (.str "new")) ∧
      lookupField out "currency" = some (.prim (.str "SYP")) ∧
      lookupField out "payment_method" = some (.prim (.str "COD")) ∧
      (∀ ps, (create_order ⟨[⟨"p1", "Tea", 1000, 2⟩, ⟨"p2", "Cof", 500, 1⟩],
          ⟨"A", "09", "Dam", "St", none⟩, "COD"⟩ 7 ⟨ps, [], 0⟩).1
        = (create_order ⟨[⟨"p1", "Tea", 1000, 2⟩, ⟨"p2", "Cof", 500, 1⟩],
          ⟨"A", "09", "Dam", "St", none⟩, "COD"⟩ 7 ⟨[], [], 0⟩).1) :=
  ⟨by norm_num,
    claim_C1_order_create_total
      ⟨[⟨"p1", "Tea", 1000, 2⟩, ⟨"p2", "Cof", 500, 1⟩],
        ⟨"A", "09", "Dam", "St", none⟩, "COD"⟩ 7 ⟨[], [], 0⟩
      (by simp) rfl (by simp)⟩

theorem mem_optEntry_keys (k k' : String) (o : Option Value)
    (h : k' ∈ (optEntry k o).map Prod.fst) : k' = k := by
  cases o with
  | none => simp [optEntry] at h
  | some v => simpa [optEntry] using h

theorem ProductUpdate.dump_keys_sub (p : ProductUpdate) :
    ∀ k ∈ p.dump.map Prod.fst,
      k ∈ (["title", "description", "price", "currency", "category",
            "image_url", "in_stock"] : List String) := by
  intro k hk
  simp only [ProductUpdate.dump, List.map_append, List.mem_append] at hk
  rcases hk with ((((((h | h) | h) | h) | h) | h) | h) <;>
    (have hx := mem_optEntry_keys _ _ _ h; subst hx; decide)

theorem ProductUpdate.dump_keys_nodup (p : ProductUpdate) :
    (p.dump.map Prod.fst).Nodup := by
  obtain ⟨t, d, pr, c, cat, i, s⟩ := p
  cases t <;> cases d <;> cases pr <;> cases c <;> cases cat <;> cases i <;>
    cases s <;> simp [ProductUpdate.dump, optEntry]

/-- C4: a product partial update on an existing product changes exactly the
supplied fields plus the refreshed updated_at in the stored document; every
key outside the supplied ones and updated_at keeps its previous value, and
every supplied field takes the supplied value. -/
theorem claim_C4_product_partial_update (pid : String) (payload : ProductUpdate)
    (env : Option String) (now : Nat) (st : Store) (oid : Nat) (d0 : Doc)
    (hparse : parseOid pid = some oid)
    (hfind : find_one st.products oid = some d0)
    (hne : payload.dump ≠ []) :
    ∃ products',
      update_product pid payload (some (env.getD "admin123")) env now st
        = (.ok (.doc (serialize_doc (setFields d0
            (payload.dump ++ [("updated_at", .prim (.dt now))])))),
           { st with products := products' }) ∧
      find_one products' oid
        = some (setFields d0 (payload.dump ++ [("updated_at", .prim (.dt now))])) ∧
      lookupField (setFields d0 (payload.dump ++ [("updated_at", .prim (.dt now))]))
        "updated_at" = some (.prim (.dt now)) ∧
      (∀ k, k ∉ payload.dump.map Prod.fst → k ≠ "updated_at" →
        lookupField (setFields d0 (payload.dump ++ [("updated_at", .prim (.dt now))])) k
          = lookupField d0 k) ∧
      (∀ k v, (k, v) ∈ payload.dump →
        lookupField (setFields d0 (payload.dump ++ [("updated_at", .prim (.dt now))])) k
          = some v) := by
  have hts : "updated_at" ∉ payload.dump.map Prod.fst := by
    intro h
    have hmem := ProductUpdate.dump_keys_sub payload _ h
    simp at hmem
  have hid : "_id" ∉ (payload.dump
      ++ [("updated_at", (.prim (.dt now) : Value))]).map Prod.fst := by
    intro h
    simp only [List.map_append, List.mem_append] at h
    rcases h with h | h
    · have hmem := ProductUpdate.dump_keys_sub payload _ h
      simp at hmem
    · simp at h
  have hmatch : idMatches oid d0 = true := List.find?_some hfind
  have hmatch2 : idMatches oid (setFields d0
      (payload.dump ++ [("updated_at", .prim (.dt now))])) = true := by
    unfold idMatches at hmatch ⊢
    rwa [lookupField_setFields_notMem _ _ _ hid]
  obtain ⟨products', hup, hfd⟩ :=
    update_one_found st.products oid _ d0 hfind hmatch2
  have hdumpE : payload.dump.isEmpty = false := by
    cases hdd : payload.dump with
    | nil => exact absurd hdd hne
    | cons a b => rfl
  have hsetF : setField payload.dump "updated_at" (.prim (.dt now))
      = payload.dump ++ [("updated_at", .prim (.dt now))] :=
    setField_append_of_notMem _ _ _ hts
  have hnodup : ((payload.dump
      ++ [("updated_at", (.prim (.dt now) : Value))]).map Prod.fst).Nodup := by
    simp only [List.map_append, List.nodup_append]
    refine ⟨ProductUpdate.dump_keys_nodup payload, by simp, ?_⟩
    intro a ha hb
    simp at hb
    subst hb
    exact hts ha
  refine ⟨products', ?_, hfd, ?_, ?_, ?_⟩
  · simp [update_product, require_admin, hdumpE, hsetF, hparse, hup, hfd]
  · exact lookupField_setFields_mem _ _ _ _ hnodup (by simp)
  · intro k hk1 hk2
    refine lookupField_setFields_notMem _ _ _ ?_
    simp only [List.map_append, List.mem_append]
    rintro (h | h)
    · exact hk1 h
    · simp at h
      exact hk2 h
  · intro k v hkv
    exact lookupField_setFields_mem _ _ _ _ hnodup (by simp [hkv])

/-- Witness for C4: updating only in_stock on a stored product; by the frame
conjunct every other field — title, price, category included — keeps its
stored value. -/
theorem claim_C4_witness :
    ∃ products',
      update_product "0" inStockOnly (some "admin123") none 9
          ⟨[sampleProduct], [], 1⟩
        = (.ok (.doc (serialize_doc (setFields sampleProduct
            (inStockOnly.dump ++ [("updated_at", .prim (.dt 9))])))),
           { (⟨[sampleProduct], [], 1⟩ : Store) with products := products' }) ∧
      find_one products' 0
        = some (setFields sampleProduct
            (inStockOnly.dump ++ [("updated_at", .prim (.dt 9))])) ∧
      lookupField (setFields sampleProduct
          (inStockOnly.dump ++ [("updated_at", .prim (.dt 9))]))
        "updated_at" = some (.prim (.dt 9)) ∧
      (∀ k, k ∉ inStockOnly.dump.map Prod.fst → k ≠ "updated_at" →
        lookupField (setFields sampleProduct
          (inStockOnly.dump ++ [("updated_at", .prim (.dt 9))])) k
          = lookupField sampleProduct k) ∧
      (∀ k v, (k, v) ∈ inStockOnly.dump →
        lookupField (setFields sampleProduct
          (inStockOnly.dump ++ [("updated_at", .prim (.dt 9))])) k
          = some v) :=
  claim_C4_product_partial_update "0" inStockOnly none 9
    ⟨[sampleProduct], [], 1⟩ 0 sampleProduct (by decide) (by decide) (by decide)

/-- C5: serialization renames the internal `_id` to a public string field
`id` (the internal field is gone from the output), renders each of
created_at/updated_at/placed_at holding a datetime as its ISO string, keeps
absent timestamp fields absent, and is applied to every element of the
product and order list responses. -/
theorem claim_C5_serialization (doc : Doc) (v : Value)
    (hid : lookupField doc "_id" = some v) :
    ∃ out, serialize_doc doc = some out ∧
      lookupField out "_id" = none ∧
      lookupField out "id" = some (.prim (.str (pyStr v))) ∧
      (∀ k, k ∈ tsKeys → ∀ t, lookupField doc k = some (.prim (.dt t)) →
          lookupField out k = some (.prim (.str (isoformat t)))) ∧
      (∀ k, k ∈ tsKeys → lookupField doc k = none → lookupField out k = none) ∧
      (∀ q c st x, x ∈ list_products q c st →
          ∃ d, d ∈ st.products ∧ x = serialize_doc d) ∧
      (∀ key env status now st res, list_orders key env status now st = .ok res →
          ∀ x ∈ res, ∃ d, d ∈ st.orders ∧ x = serialize_doc d) := by
  have hne : doc.isEmpty = false := by
    cases doc with
    | nil => simp [lookupField] at hid
    | cons a b => rfl
  refine ⟨tsKeys.foldl convertTs
      (setField (removeKey doc "_id") "id" (.prim (.str (pyStr v)))),
    ?_, ?_, ?_, ?_, ?_, ?_, ?_⟩
  · simp [serialize_doc, hne, hid]
  · simp only [tsKeys, List.foldl_cons, List.foldl_nil]
    rw [lookupField_convertTs_ne _ _ _ (by decide),
      lookupField_convertTs_ne _ _ _ (by decide),
      lookupField_convertTs_ne _ _ _ (by decide),
      lookupField_setField_ne _ _ _ _ (by decide),
      lookupField_removeKey_self]
  · simp only [tsKeys, List.foldl_cons, List.foldl_nil]
    rw [lookupField_convertTs_ne _ _ _ (by decide),
      lookupField_convertTs_ne _ _ _ (by decide),
      lookupField_convertTs_ne _ _ _ (by decide),
      lookupField_setField_self]
  · intro k hk t hdt
    simp only [tsKeys, List.mem_cons, List.not_mem_nil, or_false,
      List.mem_singleton] at hk
    have hbase : lookupField
        (setField (removeKey doc "_id") "id" (.prim (.str (pyStr v)))) k
        = lookupField doc k := by
      rcases hk with rfl | rfl | rfl <;>
        rw [lookupField_setField_ne _ _ _ _ (by decide),
          lookupField_removeKey_ne _ _ _ (by decide)]
    simp only [tsKeys, List.foldl_cons, List.foldl_nil]
    rcases hk with rfl | rfl | rfl
    · rw [lookupField_convertTs_ne _ _ _ (by decide),
        lookupField_convertTs_ne _ _ _ (by decide),
        lookupField_convertTs_dt _ _ t (hbase.trans hdt)]
    · rw [lookupField_convertTs_ne _ _ _ (by decide),
        lookupField_convertTs_dt _ _ t
          ((lookupField_convertTs_ne _ _ _ (by decide)).trans
            (hbase.trans hdt))]
    · rw [lookupField_convertTs_dt _ _ t
        ((lookupField_convertTs_ne _ _ _ (by decide)).trans
          ((lookupField_convertTs_ne _ _ _ (by decide)).trans
            (hbase.trans hdt)))]
  · intro k hk habs
    simp only [tsKeys, List.mem_cons, List.not_mem_nil, or_false,
      List.mem_singleton] at hk
    have hbase : lookupField
        (setField (removeKey doc "_id") "id" (.prim (.str (pyStr v)))) k
        = lookupField doc k := by
      rcases hk with rfl | rfl | rfl <;>
        rw [lookupField_setField_ne _ _ _ _ (by decide),
          lookupField_removeKey_ne _ _ _ (by decide)]
    simp only [tsKeys, List.foldl_cons, List.foldl_nil]
    rcases hk with rfl | rfl | rfl
    · rw [lookupField_convertTs_ne _ _ _ (by decide),
        lookupField_convertTs_ne _ _ _ (by decide),
        lookupField_convertTs_none _ _ (hbase.trans habs)]
    · rw [lookupField_convertTs_ne _ _ _ (by decide),
        lookupField_convertTs_none _ _
          ((lookupField_convertTs_ne _ _ _ (by decide)).trans
            (hbase.trans habs))]
    · rw [lookupField_convertTs_none _ _
        ((lookupField_convertTs_ne _ _ _ (by decide)).trans
          ((lookupField_convertTs_ne _ _ _ (by decide)).trans
            (hbase.trans habs)))]
  · intro q c st x hx
    simp only [list_products, List.mem_map] at hx
    obtain ⟨d, hd, rfl⟩ := hx
    refine ⟨d, ?_, rfl⟩
    simp only [get_documents, collOf, if_pos rfl] at hd
    exact List.mem_of_mem_filter hd
  · intro key env status now st res hres x hx
    unfold list_orders at hres
    cases hra : require_admin key env with
    | error e =>
        rw [hra] at hres
        simp at hres
    | ok u =>
        rw [hra] at hres
        simp only [Except.ok.injEq] at hres
        subst hres
        simp only [List.mem_map] at hx
        obtain ⟨d, hd, rfl⟩ := hx
        refine ⟨d, ?_, rfl⟩
        rw [mem_sortDescBy] at hd
        simp only [get_documents, collOf] at hd
        have hd2 : d ∈ st.orders.filter (matchFilter (orderFilter status)) := by
          simpa using hd
        exact List.mem_of_mem_filter hd2

/-- Witness for C5: serializing a stored product document. -/
theorem claim_C5_witness :
    ∃ out, serialize_doc sampleProduct = some out ∧
      lookupField out "_id" = none ∧
      lookupField out "id" = some (.prim (.str (pyStr (.prim (.oid 0))))) ∧
      (∀ k, k ∈ tsKeys → ∀ t,
          lookupField sampleProduct k = some (.prim (.dt t)) →
          lookupField out k = some (.prim (.str (isoformat t)))) ∧
      (∀ k, k ∈ tsKeys → lookupField sampleProduct k = none →
          lookupField out k = none) ∧
      (∀ q c st x, x ∈ list_products q c st →
          ∃ d, d ∈ st.products ∧ x = serialize_doc d) ∧
      (∀ key env status now st res, list_orders key env status now st = .ok res →
          ∀ x ∈ res, ∃ d, d ∈ st.orders ∧ x = serialize_doc d) :=
  claim_C5_serialization sampleProduct (.prim (.oid 0)) (by decide)

theorem patMatchAt_eq_isPrefixOf (p t : List Char) (h : '.' ∉ p) :
    patMatchAt p t
      = (p.map Char.toLower).isPrefixOf (t.map Char.toLower) := by
  induction p generalizing t with
  | nil => simp [patMatchAt, List.isPrefixOf]
  | cons a ps ih =>
      simp only [List.mem_cons] at h
      push_neg at h
      have ha : (a == '.') = false :=
        beq_eq_false_iff_ne.mpr (fun hh => h.1 hh.symm)
      cases t with
      | nil => simp [patMatchAt, List.isPrefixOf]
      | cons b ts =>
          simp [patMatchAt, List.isPrefixOf, ha, ih ts h.2]

/-- C6 counterexample: with query "." the listing includes the product
titled "x" (category "c", no description), although "." does not occur as a
case-insensitive substring of the title, the category, or an (absent)
description — the query is matched as a regular expression, not as a
substring. -/
theorem claim_C6_counterexample :
    list_products (some ".") none regexStore
      = [some [("title", .prim (.str "x")), ("category", .prim (.str "c")),
          ("id", .prim (.str "0"))]] ∧
    specContainsCI "." "x" = false ∧
    specContainsCI "." "c" = false ∧
    lookupField [("_id", .prim (.oid 0)), ("title", .prim (.str "x")),
      ("category", .prim (.str "c"))] "description" = none := by
  refine ⟨?_, by decide, by decide, by decide⟩
  decide

/-- C6 (amended): for free-text queries inside the modelled fragment (no
PCRE metacharacter other than '.'), the default listing keeps exactly the
products whose in_stock is not explicitly false; a supplied category narrows
to exact matches; a supplied query narrows to products where q, interpreted
as a case-insensitive regular expression, matches title OR description OR
category — and for patterns free of all regex metacharacters ('.'
included) the regex test coincides with the case-insensitive substring test
of the original claim, as it does under real PCRE. -/
theorem claim_C6_amended (q category : Option String) (st : Store)
    (hq : ∀ s, q = some s → inRegexFragment s = true) :
    (list_products q category st = (st.products.filter (fun d =>
        decide (lookupField d "in_stock" ≠ some (.prim (.bool false))) &&
        ((match category with
          | none => true
          | some c =>
              if c.isEmpty then true
              else decide (lookupField d "category"
                  = some (.prim (.str c)))) &&
         (match q with
          | none => true
          | some s =>
              if s.isEmpty then true
              else
                (match lookupField d "title" with
                 | some (.prim (.str x)) => regexSearchI s x
                 | _ => false) ||
                ((match lookupField d "description" with
                  | some (.prim (.str x)) => regexSearchI s x
                  | _ => false) ||
                 (match lookupField d "category" with
                  | some (.prim (.str x)) => regexSearchI s x
                  | _ => false)))))).map serialize_doc) ∧
    (∀ pat s : String, inRegexFragment pat = true → '.' ∉ pat.data →
        regexSearchI pat s = specContainsCI pat s) := by
  constructor
  · have hcoll : list_products q category st
        = (st.products.filter
            (matchFilter (productFilter q category))).map serialize_doc := by
      simp [list_products, get_documents, collOf]
    rw [hcoll]
    congr 1
    refine List.filter_congr ?_
    intro d _
    rcases q with _ | s <;> rcases category with _ | c
    · simp [productFilter, matchFilter, matchCond]
    · by_cases hc : c.isEmpty <;>
        simp [productFilter, matchFilter, matchCond, hc]
    · by_cases hs : s.isEmpty <;>
        simp [productFilter, matchFilter, matchCond, hs]
    · by_cases hs : s.isEmpty <;> by_cases hc : c.isEmpty <;>
        simp [productFilter, matchFilter, matchCond, hs, hc, Bool.and_assoc]
  · intro pat s hfrag h
    unfold regexSearchI specContainsCI
    rw [List.map_tails, List.any_map]
    congr 1
    funext t
    simp only [Function.comp]
    exact patMatchAt_eq_isPrefixOf pat.data t h

/-- Witness for C6 (amended): the query "tea" lies in the modelled fragment
and, being metacharacter-free, its served regex test and the spec's
substring test agree. -/
theorem claim_C6_witness :
    regexSearchI "tea" "Green TEA box" = specContainsCI "tea" "Green TEA box" :=
  (claim_C6_amended (some "tea") none ⟨[], [], 0⟩ (fun s h => by
      have h2 := Option.some.inj h
      subst h2
      decide)).2 "tea" "Green TEA box" (by decide) (by decide)

/-- C7 counterexample: a status-update request supplying only tracking_note
(status absent) is not accepted — with the correct admin key and an existing
order it is rejected by body validation and the store is unchanged. -/
theorem claim_C7_counterexample :
    update_order_endpoint "0" noteOnlyBody (some "admin123") none 5
        oneOrderStore
      = (.error .validationError, oneOrderStore) := rfl

/-- C7 (amended): the order status update requires status — a body without a
status field (in particular one supplying only tracking_note) is rejected by
validation with the store unchanged; a request supplying status alone is
accepted: status and updated_at are set, tracking_note keeps its stored
value, and the serialized post-update document is returned; an unknown id
yields a not-found error. -/
theorem claim_C7_status_update :
    (∀ body st adminKey env now orderId, lookupRaw body "status" = none →
        update_order_endpoint orderId body adminKey env now st
          = (.error .validationError, st)) ∧
    (∀ s env now st orderId oid d0,
        parseOid orderId = some oid →
        find_one st.orders oid = some d0 →
        ∃ orders',
          update_order orderId ⟨s, none⟩ (some (env.getD "admin123")) env now st
            = (.ok (serialize_doc (setFields d0
                [("status", .prim (.str s)),
                 ("updated_at", .prim (.dt now))])),
               { st with orders := orders' }) ∧
          find_one orders' oid = some (setFields d0
            [("status", .prim (.str s)), ("updated_at", .prim (.dt now))]) ∧
          lookupField (setFields d0 [("status", .prim (.str s)),
              ("updated_at", .prim (.dt now))]) "tracking_note"
            = lookupField d0 "tracking_note" ∧
          lookupField (setFields d0 [("status", .prim (.str s)),
              ("updated_at", .prim (.dt now))]) "status"
            = some (.prim (.str s)) ∧
          lookupField (setFields d0 [("status", .prim (.str s)),
              ("updated_at", .prim (.dt now))]) "updated_at"
            = some (.prim (.dt now))) ∧
    (∀ p env now st orderId oid,
        parseOid orderId = some oid →
        find_one st.orders oid = none →
        update_order orderId p (some (env.getD "admin123")) env now st
          = (.error (.notFound "Order not found"), st)) := by
  refine ⟨?_, ?_, ?_⟩
  · intro body st adminKey env now orderId h
    simp only [update_order_endpoint, OrderStatusUpdate.validate,
      reqStrField, h]
    rfl
  · intro s env now st orderId oid d0 hparse hfind
    have hmatch : idMatches oid d0 = true := List.find?_some hfind
    have hmatch2 : idMatches oid (setFields d0
        [("status", .prim (.str s)), ("updated_at", .prim (.dt now))])
        = true := by
      unfold idMatches at hmatch ⊢
      rwa [lookupField_setFields_notMem _ _ _ (by simp)]
    obtain ⟨orders', hup, hfd⟩ :=
      update_one_found st.orders oid _ d0 hfind hmatch2
    refine ⟨orders', ?_, hfd, ?_, ?_, ?_⟩
    · have hdump : setField (OrderStatusUpdate.dump ⟨s, none⟩) "updated_at"
          (.prim (.dt now))
          = [("status", .prim (.str s)), ("updated_at", .prim (.dt now))] := by
        simp [OrderStatusUpdate.dump, optEntry, setField]
      simp [update_order, require_admin, hparse, hdump, hup, hfd]
    · exact lookupField_setFields_notMem _ _ _ (by simp)
    · exact lookupField_setFields_mem _ _ _ _ (by simp) (by simp)
    · exact lookupField_setFields_mem _ _ _ _ (by simp) (by simp)
  · intro p env now st orderId oid hparse hfind
    have hup := update_one_none_of_find_none st.orders oid
      (setField p.dump "updated_at" (.prim (.dt now))) hfind
    simp [update_order, require_admin, hparse, hup]

/-- Witness for C7: on the one-order store, the tracking_note-only body is
rejected by validation, and the status-only payload "confirmed" is applied
with tracking_note untouched. -/
theorem claim_C7_witness :
    (update_order_endpoint "0" noteOnlyBody (some "anything") none 5
        oneOrderStore = (.error .validationError, oneOrderStore)) ∧
    (∃ orders',
      update_order "0" ⟨"confirmed", none⟩ (some "admin123") none 5
          oneOrderStore
        = (.ok (serialize_doc (setFields oneOrderDoc
            [("status", .prim (.str "confirmed")),
             ("updated_at", .prim (.dt 5))])),
           { oneOrderStore with orders := orders' }) ∧
      find_one orders' 0 = some (setFields oneOrderDoc
        [("status", .prim (.str "confirmed")),
         ("updated_at", .prim (.dt 5))]) ∧
      lookupField (setFields oneOrderDoc
          [("status", .prim (.str "confirmed")),
           ("updated_at", .prim (.dt 5))]) "tracking_note"
        = lookupField oneOrderDoc "tracking_note" ∧
      lookupField (setFields oneOrderDoc
          [("status", .prim (.str "confirmed")),
           ("updated_at", .prim (.dt 5))]) "status"
        = some (.prim (.str "confirmed")) ∧
      lookupField (setFields oneOrderDoc
          [("status", .prim (.str "confirmed")),
           ("updated_at", .prim (.dt 5))]) "updated_at"
        = some (.prim (.dt 5))) :=
  ⟨claim_C7_status_update.1 noteOnlyBody oneOrderStore (some "anything") none
      5 "0" (by decide),
    claim_C7_status_update.2.1 "confirmed" none 5 oneOrderStore "0" 0
      oneOrderDoc (by decide) (by decide)⟩

/-- C8 counterexample: a product-creation payload whose title is the empty
string is not rejected — with the correct admin key it is accepted, the
document (title "") is persisted, and the serialized document is returned. -/
theorem claim_C8_counterexample :
    (create_product_endpoint emptyTitleBody (some "admin123") none 3
        ⟨[], [], 0⟩).1
      = .ok (some [("title", .prim (.str "")), ("description", .prim .null),
          ("price", .prim (.num 5)), ("category", .prim (.str "c")),
          ("in_stock", .prim (.bool true)), ("image_url", .prim .null),
          ("currency", .prim (.str "SYP")),
          ("created_at", .prim (.str (isoformat 3))),
          ("updated_at", .prim (.str (isoformat 3))),
          ("id", .prim (.str (oidString 0)))]) ∧
    (create_product_endpoint emptyTitleBody (some "admin123") none 3
        ⟨[], [], 0⟩).2.products.length = 1 ∧
    lookupRaw emptyTitleBody "title" = some (.str "") := by
  refine ⟨rfl, rfl, rfl⟩

/-- C8 (amended): title is required — a payload lacking a title field, or
with an explicit null title, is rejected by validation before any store
write, and every accepted payload carried a string title; the empty string,
however, passes validation (there is no non-emptiness check) and the product
is persisted with title "". -/
theorem claim_C8_title_validation :
    (∀ body key env now st, lookupRaw body "title" = none →
        create_product_endpoint body key env now st
          = (.error .validationError, st)) ∧
    (∀ body key env now st, lookupRaw body "title" = some .null →
        create_product_endpoint body key env now st
          = (.error .validationError, st)) ∧
    (∀ body p, ProductCreate.validate body = .ok p →
        ∃ s, lookupRaw body "title" = some (.str s)) ∧
    (∀ price cat env now st, (0 : ℚ) ≤ price →
        ∃ stored,
          (create_product_endpoint
              [("title", .str ""), ("price", .num price),
               ("category", .str cat)]
              (some (env.getD "admin123")) env now st).2.products
            = st.products ++ [stored] ∧
          lookupField stored "title" = some (.prim (.str ""))) := by
  refine ⟨?_, ?_, ?_, ?_⟩
  · intro body key env now st h
    simp only [create_product_endpoint, ProductCreate.validate,
      reqStrField, h]
    rfl
  · intro body key env now st h
    simp only [create_product_endpoint, ProductCreate.validate,
      reqStrField, h]
    rfl
  · intro body p hok
    cases hx : lookupRaw body "title" with
    | none =>
        have hval : ProductCreate.validate body = .error .validationError := by
          simp only [ProductCreate.validate, reqStrField, hx]
          rfl
        rw [hval] at hok
        cases hok
    | some v =>
        cases v with
        | str s => exact ⟨s, by simp [hx]⟩
        | null =>
            have hval : ProductCreate.validate body
                = .error .validationError := by
              simp only [ProductCreate.validate, reqStrField, hx]
              rfl
            rw [hval] at hok
            cases hok
        | num q =>
            have hval : ProductCreate.validate body
                = .error .validationError := by
              simp only [ProductCreate.validate, reqStrField, hx]
              rfl
            rw [hval] at hok
            cases hok
        | bool b =>
            have hval : ProductCreate.validate body
                = .error .validationError := by
              simp only [ProductCreate.validate, reqStrField, hx]
              rfl
            rw [hval] at hok
            cases hok
  · intro price cat env now st hq
    have hval : ProductCreate.validate
        [("title", .str ""), ("price", .num price), ("category", .str cat)]
        = .ok ⟨"", none, price, "SYP", cat, none, true⟩ := by
      simp only [ProductCreate.validate, reqStrField, optStrField,
        reqPriceField, defStrField, defBoolField, lookupRaw, hq, if_true,
        String.reduceEq, reduceIte]
      rfl
    refine ⟨[("title", .prim (.str "")), ("description", .prim .null),
        ("price", .prim (.num price)), ("category", .prim (.str cat)),
        ("in_stock", .prim (.bool true)), ("image_url", .prim .null),
        ("currency", .prim (.str "SYP")), ("_id", .prim (.oid st.nextId)),
        ("created_at", .prim (.dt now)), ("updated_at", .prim (.dt now))],
      ?_, by simp [lookupField]⟩
    simp [create_product_endpoint, hval, create_product, require_admin,
      create_document, collOf, setColl, setFields, setField, optStrPrim]

/-- Witness for C8 (amended): a body without a title is rejected on the
empty store; the empty-string title body is accepted and persisted. -/
theorem claim_C8_witness :
    (create_product_endpoint [("price", .num 5), ("category", .str "c")]
        (some "admin123") none 3 ⟨[], [], 0⟩
      = (.error .validationError, ⟨[], [], 0⟩)) ∧
    (∃ stored,
      (create_product_endpoint [("title", .str ""), ("price", .num 5),
          ("category", .str "c")] (some "admin123") none 3
          ⟨[], [], 0⟩).2.products
        = ([] : List Doc) ++ [stored] ∧
      lookupField stored "title" = some (.prim (.str ""))) :=
  ⟨claim_C8_title_validation.1 [("price", .num 5), ("category", .str "c")]
      (some "admin123") none 3 ⟨[], [], 0⟩ (by decide),
    claim_C8_title_validation.2.2.2 5 "c" none 3 ⟨[], [], 0⟩ (by norm_num)⟩

theorem optStrField_erase (b : RawBody) (k k' : String)
    (hnull : lookupRaw b k = some .null) :
    optStrField (rawErase b k) k' = optStrField b k' := by
  by_cases h : k' = k
  · subst h
    simp [optStrField, hnull, lookupRaw_rawErase_self]
  · unfold optStrField
    rw [lookupRaw_rawErase_ne _ _ _ h]

theorem optPriceField_erase (b : RawBody) (k k' : String)
    (hnull : lookupRaw b k = some .null) :
    optPriceField (rawErase b k) k' = optPriceField b k' := by
  by_cases h : k' = k
  · subst h
    simp [optPriceField, hnull, lookupRaw_rawErase_self]
  · unfold optPriceField
    rw [lookupRaw_rawErase_ne _ _ _ h]

theorem optBoolField_erase (b : RawBody) (k k' : String)
    (hnull : lookupRaw b k = some .null) :
    optBoolField (rawErase b k) k' = optBoolField b k' := by
  by_cases h : k' = k
  · subst h
    simp [optBoolField, hnull, lookupRaw_rawErase_self]
  · unfold optBoolField
    rw [lookupRaw_rawErase_ne _ _ _ h]

theorem reqStrField_erase (b : RawBody) (k k' : String)
    (hnull : lookupRaw b k = some .null) :
    reqStrField (rawErase b k) k' = reqStrField b k' := by
  by_cases h : k' = k
  · subst h
    simp [reqStrField, hnull, lookupRaw_rawErase_self]
  · unfold reqStrField
    rw [lookupRaw_rawErase_ne _ _ _ h]

theorem ProductUpdate.validateErase_eq (b : RawBody) (k : String)
    (hnull : lookupRaw b k = some .null) :
    ProductUpdate.validate (rawErase b k) = ProductUpdate.validate b := by
  unfold ProductUpdate.validate
  simp only [optStrField_erase _ _ _ hnull, optPriceField_erase _ _ _ hnull,
    optBoolField_erase _ _ _ hnull]

theorem OrderStatusUpdate.validateEraseNote_eq (b : RawBody) (k : String)
    (hnull : lookupRaw b k = some .null) :
    OrderStatusUpdate.validate (rawErase b k) = OrderStatusUpdate.validate b := by
  unfold OrderStatusUpdate.validate
  simp only [optStrField_erase _ _ _ hnull, reqStrField_erase _ _ _ hnull]

theorem ProductUpdate.validateOk_fields (b : RawBody) (p : ProductUpdate)
    (hok : ProductUpdate.validate b = .ok p) :
    optStrField b "title" = .ok p.title ∧
    optStrField b "description" = .ok p.description ∧
    optPriceField b "price" = .ok p.price ∧
    optStrField b "currency" = .ok p.currency ∧
    optStrField b "category" = .ok p.category ∧
    optStrField b "image_url" = .ok p.image_url ∧
    optBoolField b "in_stock" = .ok p.in_stock := by
  unfold ProductUpdate.validate at hok
  cases h1 : optStrField b "title" with
  | error e => rw [h1] at hok; cases hok
  | ok t =>
  rw [h1] at hok
  cases h2 : optStrField b "description" with
  | error e => rw [h2] at hok; cases hok
  | ok d =>
  rw [h2] at hok
  cases h3 : optPriceField b "price" with
  | error e => rw [h3] at hok; cases hok
  | ok pr =>
  rw [h3] at hok
  cases h4 : optStrField b "currency" with
  | error e => rw [h4] at hok; cases hok
  | ok c =>
  rw [h4] at hok
  cases h5 : optStrField b "category" with
  | error e => rw [h5] at hok; cases hok
  | ok cat =>
  rw [h5] at hok
  cases h6 : optStrField b "image_url" with
  | error e => rw [h6] at hok; cases hok
  | ok i =>
  rw [h6] at hok
  cases h7 : optBoolField b "in_stock" with
  | error e => rw [h7] at hok; cases hok
  | ok s =>
  rw [h7] at hok
  have hok2 : (Except.ok (ProductUpdate.mk t d pr c cat i s)
      : Except ApiError ProductUpdate) = .ok p := hok
  obtain rfl : ProductUpdate.mk t d pr c cat i s = p := by
    injection hok2
  exact ⟨rfl, rfl, rfl, rfl, rfl, rfl, rfl⟩

theorem OrderStatusUpdate.validateOkStatus_fields (b : RawBody)
    (p : OrderStatusUpdate) (hok : OrderStatusUpdate.validate b = .ok p) :
    reqStrField b "status" = .ok p.status ∧
    optStrField b "tracking_note" = .ok p.tracking_note := by
  unfold OrderStatusUpdate.validate at hok
  cases h1 : reqStrField b "status" with
  | error e => rw [h1] at hok; cases hok
  | ok s =>
  rw [h1] at hok
  cases h2 : optStrField b "tracking_note" with
  | error e => rw [h2] at hok; cases hok
  | ok tn =>
  rw [h2] at hok
  have hok2 : (Except.ok (OrderStatusUpdate.mk s tn)
      : Except ApiError OrderStatusUpdate) = .ok p := hok
  obtain rfl : OrderStatusUpdate.mk s tn = p := by
    injection hok2
  exact ⟨rfl, rfl⟩

theorem notMem_keys_of_lookup_none (d : Doc) (k : String)
    (h : lookupField d k = none) : k ∉ d.map Prod.fst := by
  induction d with
  | nil => simp
  | cons hd tl ih =>
      obtain ⟨k1, v1⟩ := hd
      by_cases hk : k1 = k
      · simp [lookupField, hk] at h
      · simp only [lookupField, hk, if_false] at h
        simp only [List.map_cons, List.mem_cons]
        rintro (rfl | hmem)
        · exact hk rfl
        · exact ih h hmem

theorem lookupField_optEntry_map_ne {α : Type} (k k' : String)
    (f : α → Value) (o : Option α) (h : k' ≠ k) :
    lookupField (optEntry k (o.map f)) k' = none := by
  cases o <;> simp [optEntry, lookupField, Ne.symm h]

theorem lookupField_optEntry_map_self {α : Type} (k : String)
    (f : α → Value) (o : Option α) :
    lookupField (optEntry k (o.map f)) k = o.map f := by
  cases o <;> simp [optEntry, lookupField]

theorem lookupField_append_none_left (l1 l2 : Doc) (k : String)
    (h : lookupField l1 k = none) :
    lookupField (l1 ++ l2) k = lookupField l2 k := by
  rw [lookupField_append, h]

theorem lookupField_append_none_right (l1 l2 : Doc) (k : String)
    (h : lookupField l2 k = none) :
    lookupField (l1 ++ l2) k = lookupField l1 k := by
  rw [lookupField_append, h]
  cases lookupField l1 k <;> rfl

theorem lookupField_optEntry_ne2 (k k' : String) (o : Option Value)
    (h : k' ≠ k) : lookupField (optEntry k o) k' = none := by
  cases o <;> simp [optEntry, lookupField, Ne.symm h]

theorem lookupField_optEntry_self2 (k : String) (o : Option Value) :
    lookupField (optEntry k o) k = o := by
  cases o <;> simp [optEntry, lookupField]

theorem ProductUpdate.dump_lookups (p : ProductUpdate) :
    lookupField p.dump "title"
      = p.title.map (fun s => .prim (.str s)) ∧
    lookupField p.dump "description"
      = p.description.map (fun s => .prim (.str s)) ∧
    lookupField p.dump "price" = p.price.map (fun q => .prim (.num q)) ∧
    lookupField p.dump "currency"
      = p.currency.map (fun s => .prim (.str s)) ∧
    lookupField p.dump "category"
      = p.category.map (fun s => .prim (.str s)) ∧
    lookupField p.dump "image_url"
      = p.image_url.map (fun s => .prim (.str s)) ∧
    lookupField p.dump "in_stock"
      = p.in_stock.map (fun b => .prim (.bool b)) := by
  obtain ⟨t, d, pr, c, cat, i, s⟩ := p
  refine ⟨?_, ?_, ?_, ?_, ?_, ?_, ?_⟩
  . cases t <;>
      simp [ProductUpdate.dump, lookupField_append,
        lookupField_optEntry_self2, lookupField_optEntry_ne2]
  . cases d <;>
      simp [ProductUpdate.dump, lookupField_append,
        lookupField_optEntry_self2, lookupField_optEntry_ne2]
  . cases pr <;>
      simp [ProductUpdate.dump, lookupField_append,
        lookupField_optEntry_self2, lookupField_optEntry_ne2]
  . cases c <;>
      simp [ProductUpdate.dump, lookupField_append,
        lookupField_optEntry_self2, lookupField_optEntry_ne2]
  . cases cat <;>
      simp [ProductUpdate.dump, lookupField_append,
        lookupField_optEntry_self2, lookupField_optEntry_ne2]
  . cases i <;>
      simp [ProductUpdate.dump, lookupField_append,
        lookupField_optEntry_self2, lookupField_optEntry_ne2]
  . cases s <;>
      simp [ProductUpdate.dump, lookupField_append,
        lookupField_optEntry_self2, lookupField_optEntry_ne2]

theorem OrderStatusUpdate.dump_lookup_note (p : OrderStatusUpdate) :
    lookupField p.dump "tracking_note"
      = p.tracking_note.map (fun s => .prim (.str s)) := by
  obtain ⟨s, tn⟩ := p
  cases tn <;> simp [OrderStatusUpdate.dump, optEntry, lookupField]

theorem ProductUpdate.frame_of_dump_none (p : ProductUpdate) (k : String)
    (now : Nat) (hk : lookupField p.dump k = none) (hne : k ≠ "updated_at") :
    ∀ d0, lookupField (setFields d0
        (setField p.dump "updated_at" (.prim (.dt now)))) k
      = lookupField d0 k := by
  intro d0
  have hts : "updated_at" ∉ p.dump.map Prod.fst := by
    intro h
    have hmem := ProductUpdate.dump_keys_sub p _ h
    simp at hmem
  rw [setField_append_of_notMem _ _ _ hts]
  refine lookupField_setFields_notMem _ _ _ ?_
  simp only [List.map_append, List.mem_append]
  rintro (h | h)
  · exact notMem_keys_of_lookup_none _ _ hk h
  · simp at h
    exact hne h

/-- C9: in the product update and order status-update shapes, a field
explicitly present with value null validates identically to an absent field
(the validation result coincides with that of the body with the field
removed); a null optional field contributes no entry to the update dict and
the `$set` leaves the stored value unchanged — so an optional field can
never be cleared to null through a partial update. -/
theorem claim_C9_null_equals_absent (body : RawBody) (k : String) (now : Nat)
    (hnull : lookupRaw body k = some .null) :
    (ProductUpdate.validate (rawErase body k) = ProductUpdate.validate body) ∧
    (OrderStatusUpdate.validate (rawErase body k)
      = OrderStatusUpdate.validate body) ∧
    (k ∈ (["title", "description", "price", "currency", "category",
          "image_url", "in_stock"] : List String) →
      ∀ p, ProductUpdate.validate body = .ok p →
        lookupField p.dump k = none ∧
        ∀ d0, lookupField (setFields d0
            (setField p.dump "updated_at" (.prim (.dt now)))) k
          = lookupField d0 k) ∧
    (k = "tracking_note" →
      ∀ p, OrderStatusUpdate.validate body = .ok p →
        lookupField p.dump "tracking_note" = none ∧
        ∀ d0, lookupField (setFields d0
            (setField p.dump "updated_at" (.prim (.dt now))))
            "tracking_note"
          = lookupField d0 "tracking_note") := by
  refine ⟨ProductUpdate.validateErase_eq body k hnull,
    OrderStatusUpdate.validateEraseNote_eq body k hnull, ?_, ?_⟩
  · intro hk p hok
    have hf := ProductUpdate.validateOk_fields body p hok
    have hd := ProductUpdate.dump_lookups p
    have hne : k ≠ "updated_at" := by
      intro heq
      subst heq
      simp at hk
    have hnone : lookupField p.dump k = none := by
      simp only [List.mem_cons, List.not_mem_nil, or_false] at hk
      rcases hk with rfl | rfl | rfl | rfl | rfl | rfl | rfl
      · have h1 : (Except.ok p.title : Except ApiError (Option String))
            = .ok none := by
          rw [← hf.1]
          simp [optStrField, hnull]
        have h2 : p.title = none := by injection h1
        rw [hd.1, h2]
        rfl
      · have h1 : (Except.ok p.description : Except ApiError (Option String))
            = .ok none := by
          rw [← hf.2.1]
          simp [optStrField, hnull]
        have h2 : p.description = none := by injection h1
        rw [hd.2.1, h2]
        rfl
      · have h1 : (Except.ok p.price : Except ApiError (Option ℚ))
            = .ok none := by
          rw [← hf.2.2.1]
          simp [optPriceField, hnull]
        have h2 : p.price = none := by injection h1
        rw [hd.2.2.1, h2]
        rfl
      · have h1 : (Except.ok p.currency : Except ApiError (Option String))
            = .ok none := by
          rw [← hf.2.2.2.1]
          simp [optStrField, hnull]
        have h2 : p.currency = none := by injection h1
        rw [hd.2.2.2.1, h2]
        rfl
      · have h1 : (Except.ok p.category : Except ApiError (Option String))
            = .ok none := by
          rw [← hf.2.2.2.2.1]
          simp [optStrField, hnull]
        have h2 : p.category = none := by injection h1
        rw [hd.2.2.2.2.1, h2]
        rfl
      · have h1 : (Except.ok p.image_url : Except ApiError (Option String))
            = .ok none := by
          rw [← hf.2.2.2.2.2.1]
          simp [optStrField, hnull]
        have h2 : p.image_url = none := by injection h1
        rw [hd.2.2.2.2.2.1, h2]
        rfl
      · have h1 : (Except.ok p.in_stock : Except ApiError (Option Bool))
            = .ok none := by
          rw [← hf.2.2.2.2.2.2]
          simp [optBoolField, hnull]
        have h2 : p.in_stock = none := by injection h1
        rw [hd.2.2.2.2.2.2, h2]
        rfl
    exact ⟨hnone, fun d0 =>
      ProductUpdate.frame_of_dump_none p k now hnone hne d0⟩
  · intro hk p hok
    subst hk
    have hf := OrderStatusUpdate.validateOkStatus_fields body p hok
    have h1 : (Except.ok p.tracking_note : Except ApiError (Option String))
        = .ok none := by
      rw [← hf.2]
      simp [optStrField, hnull]
    have h2 : p.tracking_note = none := by injection h1
    have hnone : lookupField p.dump "tracking_note" = none := by
      rw [OrderStatusUpdate.dump_lookup_note, h2]
      rfl
    refine ⟨hnone, ?_⟩
    intro d0
    have hts : "updated_at" ∉ p.dump.map Prod.fst := by
      obtain ⟨s, tn⟩ := p
      cases tn <;> simp [OrderStatusUpdate.dump, optEntry]
    rw [setField_append_of_notMem _ _ _ hts]
    refine lookupField_setFields_notMem _ _ _ ?_
    simp only [List.map_append, List.mem_append]
    rintro (h | h)
    · exact notMem_keys_of_lookup_none _ _ hnone h
    · simp at h

/-- Witness for C9: a body carrying an explicit null description validates
like the empty body, contributes no update entry, and leaves any stored
description unchanged. -/
theorem claim_C9_witness :
    (ProductUpdate.validate (rawErase [("description", JPrim.null)]
        "description")
      = ProductUpdate.validate [("description", JPrim.null)]) ∧
    (OrderStatusUpdate.validate (rawErase [("description", JPrim.null)]
        "description")
      = OrderStatusUpdate.validate [("description", JPrim.null)]) ∧
    ("description" ∈ (["title", "description", "price", "currency",
          "category", "image_url", "in_stock"] : List String) →
      ∀ p, ProductUpdate.validate [("description", JPrim.null)] = .ok p →
        lookupField p.dump "description" = none ∧
        ∀ d0, lookupField (setFields d0
            (setField p.dump "updated_at" (.prim (.dt 11)))) "description"
          = lookupField d0 "description") ∧
    (("description" : String) = "tracking_note" →
      ∀ p, OrderStatusUpdate.validate [("description", JPrim.null)] = .ok p →
        lookupField p.dump "tracking_note" = none ∧
        ∀ d0, lookupField (setFields d0
            (setField p.dump "updated_at" (.prim (.dt 11))))
            "tracking_note"
          = lookupField d0 "tracking_note") :=
  claim_C9_null_equals_absent [("description", JPrim.null)] "description" 11
    (by decide)
